import Mathlib

/-!
Shallow embedding of the three scripts of the human_detection repository:
detect.py (finite video file, frame-index throttle), detect_webcam.py
(local camera, wall-clock throttle), detect_rtsp_camera.py (RTSP stream,
wall-clock throttle with reconnection).  Wall-clock instants and detector
confidences are modelled as rationals, frame indices as naturals, and the
frame marker of detect.py as an integer (it is initialized to a negative
value).  Each script's while/for loop is a fold of a per-iteration body
over the list of iteration inputs; nondeterministic environment responses
(read success, reconnect success, detector output, quit key, clock
readings) are supplied as data in the iteration input.
-/

/-- Python int() applied to a rational: truncation toward zero
(floor for nonnegative arguments, ceiling for negative ones). -/
def pyInt (q : ℚ) : ℤ := if 0 ≤ q then ⌊q⌋ else ⌈q⌉

/-- Side effects a loop iteration performs, listed in program order. -/
inductive Effect where
  | setMarker (t : ℚ)
  | setMarkerFrame (n : ℤ)
  | imwrite (id : ℕ)
  | release
  | sleep (d : ℚ)
  | reopen
deriving DecidableEq

/-- Result of one loop iteration: the successor state, the alert fired in
this iteration (if any), and the effects performed, in program order. -/
structure LoopOut (S A : Type) where
  state : S
  fired : Option A
  effects : List Effect
deriving DecidableEq

/-- The while/for loop shared by the three scripts: fold the per-iteration
body over the sequence of iteration inputs, collecting the fired alerts in
order. -/
def runFold {S E A : Type} (body : S → E → LoopOut S A) : S → List E → S × List A
  | s, [] => (s, [])
  | s, e :: es =>
    let out := body s e
    let rest := runFold body out.state es
    (rest.1, out.fired.toList ++ rest.2)

namespace Detect

/-- State of detect.py's module-level mutable variables (lines 68-70):
alert_id, frame_count, last_save_frame. -/
structure State where
  alert_id : ℕ
  frame_count : ℕ
  last_save_frame : ℤ
deriving DecidableEq

/-- detect.py line 66: interval_frames = int(fps * SAVE_INTERVAL_SEC). -/
def interval_frames (fps : ℚ) (save_interval_sec : ℕ) : ℤ :=
  pyInt (fps * save_interval_sec)

/-- detect.py lines 68-70: alert_id = 0, frame_count = 0,
last_save_frame = -interval_frames (pre-offset by one full interval). -/
def init (intF : ℤ) : State :=
  { alert_id := 0, frame_count := 0, last_save_frame := -intF }

/-- One iteration input: the detection result of the frame; none models a
result without a boxes attribute, some cls the list of box class ids. -/
abbrev Boxes := Option (List ℤ)

/-- The presence verdict encoded by detect.py lines 87-92: skip when boxes
are absent or empty, otherwise person iff some class id equals 0. -/
def presentD (b : Boxes) : Bool :=
  match b with
  | none => false
  | some cls => !(cls.length == 0) && cls.any (fun c => c == 0)

/-- One iteration of the for-loop of detect.py (lines 75-106): increment
frame_count; skip frames with absent or empty boxes; fire when a person is
present and frame_count - last_save_frame >= interval_frames, incrementing
alert_id, setting last_save_frame to the current frame index, then writing
the image. -/
def step (intF : ℤ) (s : State) (b : Boxes) : LoopOut State (ℕ × ℕ) :=
  let frame_count := s.frame_count + 1
  match b with
  | none => ⟨{ s with frame_count := frame_count }, none, []⟩
  | some cls =>
    if cls.length == 0 then
      ⟨{ s with frame_count := frame_count }, none, []⟩
    else
      let has_person := cls.any (fun c => c == 0)
      if has_person ∧ (frame_count : ℤ) - s.last_save_frame ≥ intF then
        ⟨{ alert_id := s.alert_id + 1, frame_count := frame_count,
           last_save_frame := (frame_count : ℤ) },
         some (s.alert_id + 1, frame_count),
         [.setMarkerFrame (frame_count : ℤ), .imwrite (s.alert_id + 1)]⟩
      else
        ⟨{ s with frame_count := frame_count }, none, []⟩

/-- The whole for-loop of detect.py over a list of per-frame detection
results, returning the final state and the fired alerts (id, frame index). -/
def run (intF : ℤ) : State → List Boxes → State × List (ℕ × ℕ) :=
  runFold (step intF)

/-- detect.py line 109: after the loop, the total alert_id is printed. -/
def terminationReport (s : State) : Option ℕ := some s.alert_id

end Detect

namespace Webcam

/-- One detector box restricted to the two fields detect_webcam.py reads:
the class id and the confidence. -/
structure Detection where
  cls : ℤ
  conf : ℚ
deriving DecidableEq

/-- detect_webcam.py line 73: the boxes whose class is 0 and whose
confidence is strictly above the threshold. -/
def persons (thr : ℚ) (boxes : List Detection) : List Detection :=
  boxes.filter (fun b => b.cls == 0 && decide (b.conf > thr))

/-- detect_webcam.py line 74: has_person = len(persons) > 0. -/
def has_person (thr : ℚ) (boxes : List Detection) : Bool :=
  decide (0 < (persons thr boxes).length)

/-- State of detect_webcam.py's module-level mutable variables, plus
whether the loop has been left through the quit branch. -/
structure State where
  alert_id : ℕ
  last_save_time : ℚ
  terminated : Bool
deriving DecidableEq

/-- detect_webcam.py lines 47-48: alert_id = 0 and
last_save_time = time.time(), i.e. the start instant with no offset. -/
def init (t0 : ℚ) : State :=
  { alert_id := 0, last_save_time := t0, terminated := false }

/-- One iteration input: a failed read, or a frame together with the
wall-clock instant read in the save branch, the detector boxes, and
whether Q was pressed at the end of the iteration. -/
inductive Event where
  | readFail
  | frame (t : ℚ) (boxes : List Detection) (quitKey : Bool)
deriving DecidableEq

/-- One iteration of the while-loop of detect_webcam.py (lines 57-103):
a failed read releases the capture, sleeps two seconds and reopens it,
leaving the counters untouched; on a frame, when a person is present and
current_time - last_save_time >= SAVE_INTERVAL_SEC, alert_id is
incremented, last_save_time is set to current_time, then the image is
written; the quit key ends the loop. -/
def step (intervalSec thr : ℚ) (s : State) (ev : Event) : LoopOut State (ℕ × ℚ) :=
  if s.terminated then ⟨s, none, []⟩
  else
    match ev with
    | .readFail => ⟨s, none, [.release, .sleep 2, .reopen]⟩
    | .frame t boxes quitKey =>
      if has_person thr boxes ∧ t - s.last_save_time ≥ intervalSec then
        ⟨{ alert_id := s.alert_id + 1, last_save_time := t, terminated := quitKey },
         some (s.alert_id + 1, t),
         [.setMarker t, .imwrite (s.alert_id + 1)]⟩
      else
        ⟨{ s with terminated := quitKey }, none, []⟩

/-- The whole while-loop of detect_webcam.py, returning the final state
and the fired alerts (id, wall-clock instant). -/
def run (intervalSec thr : ℚ) : State → List Event → State × List (ℕ × ℚ) :=
  runFold (step intervalSec thr)

/-- detect_webcam.py lines 100-106: the quit path prints a fixed farewell
and releases the capture; no alert total is printed at termination. -/
def terminationReport (_ : State) : Option ℕ := none

end Webcam

namespace Rtsp

/-- Connection status of detect_rtsp_camera.py's loop: cap is None
(connecting), cap is a live capture (streaming), or the loop was left
through the quit branch (terminated). -/
inductive Mode where
  | connecting
  | streaming
  | terminated
deriving DecidableEq

/-- State of detect_rtsp_camera.py's module-level mutable variables
(lines 95-98) together with the connection status. -/
structure State where
  mode : Mode
  alert_id : ℕ
  frame_count : ℕ
  last_save_time : ℚ
deriving DecidableEq

/-- detect_rtsp_camera.py lines 95-98: cap = connect_rtsp(url) (possibly
None), alert_id = 0, frame_count = 0, and
last_save_time = time.time() - SAVE_INTERVAL_SEC (pre-offset by one
interval). -/
def init (opened : Bool) (t0 intervalSec : ℚ) : State :=
  { mode := if opened then .streaming else .connecting,
    alert_id := 0, frame_count := 0, last_save_time := t0 - intervalSec }

/-- Environment responses one iteration may consume: the outcome of a
reconnect attempt, the outcome of the read, the two instants time.time()
is read at in the save branch (the comparison at line 134 and the marker
reset at line 136), the detector boxes, and the quit key. -/
structure Oracle where
  openOk : Bool
  readOk : Bool
  tCheck : ℚ
  tReset : ℚ
  boxes : Option (List ℤ)
  quitKey : Bool
deriving DecidableEq

/-- The presence verdict of detect_rtsp_camera.py lines 123-127: person
iff boxes is not None, nonempty, and some class id equals 0. -/
def presentR (b : Option (List ℤ)) : Bool :=
  match b with
  | some cls => !(cls.length == 0) && cls.any (fun c => c == 0)
  | none => false

/-- One iteration of the while-loop of detect_rtsp_camera.py
(lines 102-147): with no session, sleep the fixed reconnect delay and
retry connect_rtsp; a failed read releases the session and goes back to
connecting; otherwise increment frame_count, and when a person is present
and time.time() - last_save_time >= SAVE_INTERVAL_SEC, increment
alert_id, set last_save_time to a fresh time.time() reading, then write
the image; the quit key ends the loop after a processed frame. -/
def step (intervalSec delay : ℚ) (s : State) (o : Oracle) : LoopOut State (ℕ × ℚ) :=
  match s.mode with
  | .terminated => ⟨s, none, []⟩
  | .connecting =>
    if o.openOk then ⟨{ s with mode := .streaming }, none, [.sleep delay, .reopen]⟩
    else ⟨s, none, [.sleep delay, .reopen]⟩
  | .streaming =>
    if !o.readOk then ⟨{ s with mode := .connecting }, none, [.release]⟩
    else
      let frame_count := s.frame_count + 1
      let has_person := presentR o.boxes
      if has_person ∧ o.tCheck - s.last_save_time ≥ intervalSec then
        ⟨{ mode := (if o.quitKey then .terminated else .streaming),
           alert_id := s.alert_id + 1, frame_count := frame_count,
           last_save_time := o.tReset },
         some (s.alert_id + 1, o.tCheck),
         [.setMarker o.tReset, .imwrite (s.alert_id + 1)]⟩
      else
        ⟨{ s with
           mode := (if o.quitKey then .terminated else .streaming),
           frame_count := frame_count }, none, []⟩

/-- The whole while-loop of detect_rtsp_camera.py, returning the final
state and the fired alerts (id, wall-clock instant of the check). -/
def run (intervalSec delay : ℚ) : State → List Oracle → State × List (ℕ × ℚ) :=
  runFold (step intervalSec delay)

/-- detect_rtsp_camera.py line 152: after the loop, the total alert_id is
printed. -/
def terminationReport (s : State) : Option ℕ := some s.alert_id

end Rtsp

/-- Follows the spec's words (section 4.3), for comparison with
Detect.interval_frames translated from detect.py line 66: the spec states
intervalFrames = round(fps × intervalSeconds). -/
def interval_frames_spec (fps : ℚ) (save_interval_sec : ℕ) : ℤ :=
  round (fps * save_interval_sec)

section GenericLoop

variable {S E A : Type}

/-- Splitting a loop run at a list append. -/
theorem runFold_append (body : S → E → LoopOut S A) (s : S) (xs ys : List E) :
    runFold body s (xs ++ ys) =
      ((runFold body (runFold body s xs).1 ys).1,
       (runFold body s xs).2 ++ (runFold body (runFold body s xs).1 ys).2) := by
  induction xs generalizing s with
  | nil => simp [runFold]
  | cons x xs ih => simp [runFold, ih]

/-- If the loop body increments a counter f exactly on firing iterations and
stamps the fired alert with the incremented value, then the fired alerts of a
run carry the consecutive values f s + 1, f s + 2, ..., and the final counter
equals the initial one plus the number of fired alerts. -/
theorem runFold_ids (body : S → E → LoopOut S A) (g : A → ℕ) (f : S → ℕ)
    (h1 : ∀ s e, (body s e).fired = none → f (body s e).state = f s)
    (h2 : ∀ s e a, (body s e).fired = some a →
      g a = f s + 1 ∧ f (body s e).state = f s + 1) :
    ∀ (es : List E) (s : S),
      ((runFold body s es).2).map g
          = List.range' (f s + 1) ((runFold body s es).2).length ∧
        f (runFold body s es).1 = f s + ((runFold body s es).2).length := by
  intro es
  induction es with
  | nil => intro s; simp [runFold]
  | cons e es ih =>
    intro s
    have hmain := ih (body s e).state
    cases hf : (body s e).fired with
    | none =>
      have hs := h1 s e hf
      simp only [runFold, hf, Option.toList_none, List.nil_append]
      rw [hs] at hmain
      exact hmain
    | some a =>
      obtain ⟨hg, hs⟩ := h2 s e a hf
      simp only [runFold, hf, Option.toList_some, List.singleton_append,
        List.map_cons, List.length_cons]
      rw [hs] at hmain
      refine ⟨?_, by rw [hmain.2]; omega⟩
      rw [hmain.1, hg, List.range'_succ]

/-- If every firing iteration requires the fire instant to be at least one
interval after the marker and leaves the marker at or past the fire instant,
and non-firing iterations leave the marker unchanged, then consecutive fired
alerts of a run are separated by at least one interval, and the first fired
alert is at least one interval past the initial marker. -/
theorem runFold_chain (body : S → E → LoopOut S A)
    (m : S → ℚ) (tau : A → ℚ) (I : ℚ) :
    ∀ es : List E,
      (∀ s : S, ∀ e ∈ es, ∀ a, (body s e).fired = some a →
        I ≤ tau a - m s ∧ tau a ≤ m (body s e).state) →
      (∀ s : S, ∀ e ∈ es, (body s e).fired = none →
        m (body s e).state = m s) →
      ∀ s : S,
        List.Chain' (fun a b => I ≤ tau b - tau a) ((runFold body s es).2) ∧
          ∀ a ∈ ((runFold body s es).2).head?, I ≤ tau a - m s := by
  intro es
  induction es with
  | nil => intro _ _ s; simp [runFold]
  | cons e es ih =>
    intro h1 h2 s
    have h1t : ∀ s : S, ∀ e' ∈ es, ∀ a, (body s e').fired = some a →
        I ≤ tau a - m s ∧ tau a ≤ m (body s e').state :=
      fun s e' he' => h1 s e' (List.mem_cons_of_mem _ he')
    have h2t : ∀ s : S, ∀ e' ∈ es, (body s e').fired = none →
        m (body s e').state = m s :=
      fun s e' he' => h2 s e' (List.mem_cons_of_mem _ he')
    have hrest := ih h1t h2t (body s e).state
    cases hf : (body s e).fired with
    | none =>
      have hm := h2 s e (List.mem_cons_self e es) hf
      simp only [runFold, hf, Option.toList_none, List.nil_append]
      refine ⟨hrest.1, fun a ha => ?_⟩
      have := hrest.2 a ha
      rw [hm] at this
      exact this
    | some a =>
      obtain ⟨hIa, hma⟩ := h1 s e (List.mem_cons_self e es) a hf
      simp only [runFold, hf, Option.toList_some, List.singleton_append]
      constructor
      · rw [List.chain'_cons']
        refine ⟨fun b hb => ?_, hrest.1⟩
        have hb' := hrest.2 b hb
        have : tau b - m (body s e).state ≤ tau b - tau a :=
          sub_le_sub_left hma _
        linarith
      · intro b hb
        simp only [List.head?_cons, Option.mem_def, Option.some.injEq] at hb
        rw [← hb]
        exact hIa

end GenericLoop

namespace Detect

/-- The guarded form of one detect.py iteration: it fires exactly when the
presence verdict holds and the frame distance to the marker reaches the
interval; otherwise only frame_count advances. -/
theorem step_eq (intF : ℤ) (s : State) (b : Boxes) :
    step intF s b =
      if presentD b = true ∧
          ((s.frame_count + 1 : ℕ) : ℤ) - s.last_save_frame ≥ intF then
        ⟨{ alert_id := s.alert_id + 1, frame_count := s.frame_count + 1,
           last_save_frame := ((s.frame_count + 1 : ℕ) : ℤ) },
         some (s.alert_id + 1, s.frame_count + 1),
         [.setMarkerFrame ((s.frame_count + 1 : ℕ) : ℤ),
          .imwrite (s.alert_id + 1)]⟩
      else ⟨{ s with frame_count := s.frame_count + 1 }, none, []⟩ := by
  cases b with
  | none => simp [step, presentD]
  | some cls =>
    by_cases h0 : cls.length == 0
    · simp [step, presentD, h0]
    · by_cases hp : cls.any (fun c => c == 0)
      · simp [step, presentD, h0, hp]
      · simp [step, presentD, h0, hp]

/-- A non-firing detect.py iteration only advances frame_count. -/
theorem step_none_state (intF : ℤ) (s : State) (b : Boxes)
    (h : (step intF s b).fired = none) :
    (step intF s b).state = { s with frame_count := s.frame_count + 1 } := by
  rw [step_eq] at h ⊢
  by_cases hc : presentD b = true ∧
      ((s.frame_count + 1 : ℕ) : ℤ) - s.last_save_frame ≥ intF
  · rw [if_pos hc] at h; cases h
  · rw [if_neg hc]

/-- A firing detect.py iteration: the fired pair and the successor state. -/
theorem step_some (intF : ℤ) (s : State) (b : Boxes) (a : ℕ × ℕ)
    (h : (step intF s b).fired = some a) :
    presentD b = true ∧
      ((s.frame_count + 1 : ℕ) : ℤ) - s.last_save_frame ≥ intF ∧
      a = (s.alert_id + 1, s.frame_count + 1) ∧
      (step intF s b).state =
        { alert_id := s.alert_id + 1, frame_count := s.frame_count + 1,
          last_save_frame := ((s.frame_count + 1 : ℕ) : ℤ) } := by
  rw [step_eq] at h ⊢
  by_cases hc : presentD b = true ∧
      ((s.frame_count + 1 : ℕ) : ℤ) - s.last_save_frame ≥ intF
  · rw [if_pos hc] at h ⊢
    simp only [Option.some.injEq] at h
    exact ⟨hc.1, hc.2, h.symm, rfl⟩
  · rw [if_neg hc] at h; cases h

/-- A detect.py iteration on a frame without presence is a pure skip. -/
theorem step_not_present (intF : ℤ) (s : State) (b : Boxes)
    (h : presentD b = false) :
    step intF s b = ⟨{ s with frame_count := s.frame_count + 1 }, none, []⟩ := by
  rw [step_eq]
  rw [if_neg]
  intro hc
  rw [hc.1] at h
  cases h

/-- Running detect.py over frames with no presence fires nothing and only
advances frame_count. -/
theorem run_skip_absent (intF : ℤ) (bs : List Boxes)
    (h : ∀ b ∈ bs, presentD b = false) :
    ∀ s : State,
      run intF s bs = ({ s with frame_count := s.frame_count + bs.length }, []) := by
  induction bs with
  | nil => intro s; simp [run, runFold]
  | cons b bs ih =>
    intro s
    have hb := h b (List.mem_cons_self b bs)
    have ht : ∀ b' ∈ bs, presentD b' = false :=
      fun b' hb' => h b' (List.mem_cons_of_mem _ hb')
    simp only [run, runFold] at ih ⊢
    rw [step_not_present intF s b hb]
    simp only [Option.toList_none, List.nil_append, List.length_cons]
    rw [ih ht]
    simp only [Prod.mk.injEq, State.mk.injEq]
    exact ⟨⟨trivial, by omega, trivial⟩, trivial⟩

end Detect

namespace Webcam

/-- A non-firing detect_webcam.py iteration leaves the alert counter and
the throttle marker unchanged. -/
theorem wstep_none_keeps (intervalSec thr : ℚ) (s : State) (ev : Event)
    (h : (step intervalSec thr s ev).fired = none) :
    (step intervalSec thr s ev).state.alert_id = s.alert_id ∧
      (step intervalSec thr s ev).state.last_save_time = s.last_save_time := by
  cases ev with
  | readFail =>
    simp only [step]
    by_cases ht : s.terminated = true
    · rw [if_pos ht]; exact ⟨rfl, rfl⟩
    · rw [if_neg ht]; exact ⟨rfl, rfl⟩
  | frame t boxes quitKey =>
    simp only [step] at h ⊢
    by_cases ht : s.terminated = true
    · rw [if_pos ht]; exact ⟨rfl, rfl⟩
    · rw [if_neg ht] at h ⊢
      by_cases hc : has_person thr boxes = true ∧
          t - s.last_save_time ≥ intervalSec
      · rw [if_pos hc] at h; cases h
      · rw [if_neg hc]; exact ⟨rfl, rfl⟩

/-- A firing detect_webcam.py iteration: the interval had elapsed at the
fire instant, the alert id is the incremented counter, the marker is reset
to the fire instant in the successor state, and the marker reset precedes
the image write in the effect order. -/
theorem wstep_fire_spec (intervalSec thr : ℚ) (s : State) (ev : Event)
    (a : ℕ × ℚ) (h : (step intervalSec thr s ev).fired = some a) :
    intervalSec ≤ a.2 - s.last_save_time ∧
      a.1 = s.alert_id + 1 ∧
      (step intervalSec thr s ev).state.alert_id = s.alert_id + 1 ∧
      (step intervalSec thr s ev).state.last_save_time = a.2 ∧
      (step intervalSec thr s ev).effects =
        [.setMarker a.2, .imwrite a.1] := by
  cases ev with
  | readFail =>
    simp only [step] at h
    by_cases ht : s.terminated = true
    · rw [if_pos ht] at h; cases h
    · rw [if_neg ht] at h; cases h
  | frame t boxes quitKey =>
    simp only [step] at h ⊢
    by_cases ht : s.terminated = true
    · rw [if_pos ht] at h; cases h
    · rw [if_neg ht] at h ⊢
      by_cases hc : has_person thr boxes = true ∧
          t - s.last_save_time ≥ intervalSec
      · rw [if_pos hc] at h ⊢
        simp only [Option.some.injEq] at h
        rw [← h]
        exact ⟨hc.2, rfl, rfl, rfl, rfl⟩
      · rw [if_neg hc] at h; cases h

/-- The loop of detect_webcam.py only ends through the quit key: an
iteration starting unterminated ends terminated only when the iteration
processed a frame and Q was pressed. -/
theorem wstep_quit_only (intervalSec thr : ℚ) (s : State)
    (ev : Event) (h : s.terminated = false)
    (h2 : (step intervalSec thr s ev).state.terminated = true) :
    ∃ t boxes, ev = .frame t boxes true := by
  cases ev with
  | readFail =>
    simp only [step] at h2
    rw [if_neg (by simp [h])] at h2
    rw [h] at h2; cases h2
  | frame t boxes quitKey =>
    simp only [step] at h2
    rw [if_neg (by simp [h])] at h2
    refine ⟨t, boxes, ?_⟩
    by_cases hc : has_person thr boxes = true ∧
        t - s.last_save_time ≥ intervalSec
    · rw [if_pos hc] at h2
      simp only at h2
      rw [h2]
    · rw [if_neg hc] at h2
      simp only at h2
      rw [h2]

/-- A failed read in detect_webcam.py releases the capture, sleeps two
seconds and reopens it, firing nothing and leaving the state unchanged. -/
theorem wstep_readFail (intervalSec thr : ℚ) (s : State)
    (h : s.terminated = false) :
    step intervalSec thr s .readFail =
      ⟨s, none, [.release, .sleep 2, .reopen]⟩ := by
  simp only [step]
  rw [if_neg (by simp [h])]

end Webcam

namespace Rtsp

/-- A non-firing detect_rtsp_camera.py iteration leaves the alert counter
and the throttle marker unchanged. -/
theorem rstep_none_keeps (intervalSec delay : ℚ) (s : State) (o : Oracle)
    (h : (step intervalSec delay s o).fired = none) :
    (step intervalSec delay s o).state.alert_id = s.alert_id ∧
      (step intervalSec delay s o).state.last_save_time = s.last_save_time := by
  obtain ⟨mode, aid, fc, lst⟩ := s
  cases mode with
  | terminated => exact ⟨rfl, rfl⟩
  | connecting =>
    by_cases ho : o.openOk
    · simp [step, ho]
    · simp [step, ho]
  | streaming =>
    simp only [step] at h ⊢
    cases hro : o.readOk with
    | false =>
      rw [if_pos (by simp [hro])]
      exact ⟨rfl, rfl⟩
    | true =>
      rw [if_neg (by simp [hro])] at h ⊢
      by_cases hc : presentR o.boxes = true ∧
          o.tCheck - lst ≥ intervalSec
      · rw [if_pos hc] at h; cases h
      · rw [if_neg hc]; exact ⟨rfl, rfl⟩

/-- A firing detect_rtsp_camera.py iteration: the session was streaming,
the read succeeded, presence held, the interval had elapsed at the check
instant, the alert id is the incremented counter, the marker is reset to
the second clock reading, and the marker reset precedes the image write
in the effect order. -/
theorem rstep_fire_spec (intervalSec delay : ℚ) (s : State) (o : Oracle)
    (a : ℕ × ℚ) (h : (step intervalSec delay s o).fired = some a) :
    s.mode = .streaming ∧ o.readOk = true ∧ presentR o.boxes = true ∧
      a = (s.alert_id + 1, o.tCheck) ∧
      intervalSec ≤ o.tCheck - s.last_save_time ∧
      (step intervalSec delay s o).state.alert_id = s.alert_id + 1 ∧
      (step intervalSec delay s o).state.frame_count = s.frame_count + 1 ∧
      (step intervalSec delay s o).state.last_save_time = o.tReset ∧
      (step intervalSec delay s o).effects =
        [.setMarker o.tReset, .imwrite (s.alert_id + 1)] := by
  obtain ⟨mode, aid, fc, lst⟩ := s
  cases mode with
  | terminated => cases h
  | connecting =>
    by_cases ho : o.openOk
    · simp only [step, if_pos ho] at h; cases h
    · simp only [step, if_neg ho] at h; cases h
  | streaming =>
    simp only [step] at h ⊢
    cases hro : o.readOk with
    | false =>
      rw [if_pos (by simp [hro])] at h
      cases h
    | true =>
      rw [if_neg (by simp [hro])] at h ⊢
      by_cases hc : presentR o.boxes = true ∧ o.tCheck - lst ≥ intervalSec
      · rw [if_pos hc] at h ⊢
        simp only [Option.some.injEq] at h
        exact ⟨trivial, rfl, hc.1, h.symm, hc.2, rfl, rfl, rfl, rfl⟩
      · rw [if_neg hc] at h; cases h

/-- The loop of detect_rtsp_camera.py only ends through the quit key: an
iteration starting in a live mode ends terminated only when it was
streaming, the read succeeded, and Q was pressed. -/
theorem rstep_quit_only (intervalSec delay : ℚ) (s : State)
    (o : Oracle) (h : s.mode ≠ .terminated)
    (h2 : (step intervalSec delay s o).state.mode = .terminated) :
    o.quitKey = true ∧ s.mode = .streaming ∧ o.readOk = true := by
  obtain ⟨mode, aid, fc, lst⟩ := s
  cases mode with
  | terminated => exact absurd rfl h
  | connecting =>
    by_cases ho : o.openOk
    · simp only [step, if_pos ho] at h2; cases h2
    · simp only [step, if_neg ho] at h2; cases h2
  | streaming =>
    simp only [step] at h2
    cases hro : o.readOk with
    | false =>
      rw [if_pos (by simp [hro])] at h2
      cases h2
    | true =>
      rw [if_neg (by simp [hro])] at h2
      refine ⟨?_, rfl, rfl⟩
      by_cases hc : presentR o.boxes = true ∧ o.tCheck - lst ≥ intervalSec
      · rw [if_pos hc] at h2
        simp only at h2
        by_cases hq : o.quitKey
        · exact hq
        · rw [if_neg hq] at h2; cases h2
      · rw [if_neg hc] at h2
        simp only at h2
        by_cases hq : o.quitKey
        · exact hq
        · rw [if_neg hq] at h2; cases h2

/-- A whole run of detect_rtsp_camera.py with no quit key pressed never
ends terminated, whatever open failures, read failures and frames occur. -/
theorem run_no_quit (intervalSec delay : ℚ) (os : List Oracle)
    (hq : ∀ o ∈ os, o.quitKey = false) :
    ∀ s : State, s.mode ≠ .terminated →
      (run intervalSec delay s os).1.mode ≠ .terminated := by
  induction os with
  | nil => intro s hs; simpa [run, runFold] using hs
  | cons o os ih =>
    intro s hs
    have hqt : ∀ o' ∈ os, o'.quitKey = false :=
      fun o' ho' => hq o' (List.mem_cons_of_mem _ ho')
    have hstep : (step intervalSec delay s o).state.mode ≠ .terminated := by
      intro hterm
      have := rstep_quit_only intervalSec delay s o hs hterm
      rw [hq o (List.mem_cons_self o os)] at this
      cases this.1
    simpa [run, runFold] using ih hqt (step intervalSec delay s o).state hstep

/-- An iteration with no live session sleeps the fixed delay and retries
connect_rtsp, firing nothing and leaving the counters and the marker
unchanged; the mode becomes streaming exactly when the open succeeded. -/
theorem step_connecting (intervalSec delay : ℚ) (s : State) (o : Oracle)
    (h : s.mode = .connecting) :
    (step intervalSec delay s o).fired = none ∧
      (step intervalSec delay s o).state.alert_id = s.alert_id ∧
      (step intervalSec delay s o).state.frame_count = s.frame_count ∧
      (step intervalSec delay s o).state.last_save_time = s.last_save_time ∧
      (step intervalSec delay s o).state.mode =
        (if o.openOk then .streaming else .connecting) ∧
      (step intervalSec delay s o).effects = [.sleep delay, .reopen] := by
  obtain ⟨mode, aid, fc, lst⟩ := s
  cases mode with
  | terminated => cases h
  | streaming => cases h
  | connecting =>
    by_cases ho : o.openOk
    · simp [step, ho]
    · simp [step, ho]

/-- A failed read while streaming releases the session and goes back to
connecting, firing nothing and leaving counters and marker unchanged. -/
theorem rstep_readFail (intervalSec delay : ℚ) (s : State) (o : Oracle)
    (h : s.mode = .streaming) (hr : o.readOk = false) :
    step intervalSec delay s o =
      ⟨{ s with mode := .connecting }, none, [.release]⟩ := by
  obtain ⟨mode, aid, fc, lst⟩ := s
  cases mode with
  | terminated => cases h
  | connecting => cases h
  | streaming =>
    simp only [step]
    rw [if_pos (by simp [hr])]

/-- A streaming iteration whose read succeeds, whose frame shows presence,
and whose check instant is at least one interval past the marker, fires. -/
theorem step_fire (intervalSec delay : ℚ) (s : State) (o : Oracle)
    (h : s.mode = .streaming) (hr : o.readOk = true)
    (hp : presentR o.boxes = true)
    (hc : o.tCheck - s.last_save_time ≥ intervalSec) :
    (step intervalSec delay s o).fired = some (s.alert_id + 1, o.tCheck) := by
  obtain ⟨mode, aid, fc, lst⟩ := s
  cases mode with
  | terminated => cases h
  | connecting => cases h
  | streaming =>
    simp only [step]
    rw [if_neg (by simp [hr])]
    rw [if_pos ⟨hp, hc⟩]

/-- An iteration whose frame shows no presence cannot fire, and leaves the
alert counter and the marker unchanged. -/
theorem step_no_present (intervalSec delay : ℚ) (s : State) (o : Oracle)
    (hp : presentR o.boxes = false) :
    (step intervalSec delay s o).fired = none ∧
      (step intervalSec delay s o).state.alert_id = s.alert_id ∧
      (step intervalSec delay s o).state.last_save_time = s.last_save_time := by
  obtain ⟨mode, aid, fc, lst⟩ := s
  cases mode with
  | terminated => exact ⟨rfl, rfl, rfl⟩
  | connecting =>
    by_cases ho : o.openOk
    · simp [step, ho]
    · simp [step, ho]
  | streaming =>
    simp only [step]
    cases hro : o.readOk with
    | false =>
      rw [if_pos (by simp [hro])]
      exact ⟨rfl, rfl, rfl⟩
    | true =>
      rw [if_neg (by simp [hro])]
      rw [if_neg (by rw [hp]; simp)]
      exact ⟨rfl, rfl, rfl⟩

/-- Running detect_rtsp_camera.py over oracles with no presence fires
nothing and leaves the alert counter and the marker unchanged. -/
theorem rrun_all_absent (intervalSec delay : ℚ) (os : List Oracle)
    (hp : ∀ o ∈ os, presentR o.boxes = false) :
    ∀ s : State,
      (run intervalSec delay s os).2 = [] ∧
        (run intervalSec delay s os).1.alert_id = s.alert_id ∧
        (run intervalSec delay s os).1.last_save_time = s.last_save_time := by
  induction os with
  | nil => intro s; simp [run, runFold]
  | cons o os ih =>
    intro s
    have h1 := step_no_present intervalSec delay s o
      (hp o (List.mem_cons_self o os))
    have hpt : ∀ o' ∈ os, presentR o'.boxes = false :=
      fun o' ho' => hp o' (List.mem_cons_of_mem _ ho')
    have ih' := ih hpt (step intervalSec delay s o).state
    simp only [run, runFold, h1.1, Option.toList_none, List.nil_append]
    simp only [run] at ih'
    exact ⟨ih'.1, by rw [ih'.2.1, h1.2.1], by rw [ih'.2.2, h1.2.2]⟩

end Rtsp


/-- The ids of the alerts fired by a detect.py run from a state count up
consecutively from the state's counter, and the final counter equals the
initial counter plus the number of fired alerts. -/
theorem Detect.drun_ids (intF : ℤ) (bs : List Detect.Boxes) (s : Detect.State) :
    ((Detect.run intF s bs).2).map Prod.fst
        = List.range' (s.alert_id + 1) ((Detect.run intF s bs).2).length ∧
      (Detect.run intF s bs).1.alert_id
        = s.alert_id + ((Detect.run intF s bs).2).length := by
  simp only [Detect.run]
  refine runFold_ids (Detect.step intF) Prod.fst Detect.State.alert_id ?_ ?_ bs s
  · intro s b hb
    rw [Detect.step_none_state intF s b hb]
  · intro s b a ha
    obtain ⟨-, -, ha2, hst⟩ := Detect.step_some intF s b a ha
    rw [hst, ha2]
    exact ⟨rfl, rfl⟩

/-- The ids of the alerts fired by a detect_webcam.py run from a state
count up consecutively from the state's counter. -/
theorem Webcam.wrun_ids (intervalSec thr : ℚ) (evs : List Webcam.Event)
    (s : Webcam.State) :
    ((Webcam.run intervalSec thr s evs).2).map Prod.fst
        = List.range' (s.alert_id + 1)
            ((Webcam.run intervalSec thr s evs).2).length ∧
      (Webcam.run intervalSec thr s evs).1.alert_id
        = s.alert_id + ((Webcam.run intervalSec thr s evs).2).length := by
  simp only [Webcam.run]
  refine runFold_ids (Webcam.step intervalSec thr) Prod.fst
    Webcam.State.alert_id ?_ ?_ evs s
  · intro s ev h
    exact (Webcam.wstep_none_keeps intervalSec thr s ev h).1
  · intro s ev a h
    have hs := Webcam.wstep_fire_spec intervalSec thr s ev a h
    exact ⟨hs.2.1, hs.2.2.1⟩

/-- The ids of the alerts fired by a detect_rtsp_camera.py run from a
state count up consecutively from the state's counter. -/
theorem Rtsp.rrun_ids (intervalSec delay : ℚ) (os : List Rtsp.Oracle)
    (s : Rtsp.State) :
    ((Rtsp.run intervalSec delay s os).2).map Prod.fst
        = List.range' (s.alert_id + 1)
            ((Rtsp.run intervalSec delay s os).2).length ∧
      (Rtsp.run intervalSec delay s os).1.alert_id
        = s.alert_id + ((Rtsp.run intervalSec delay s os).2).length := by
  simp only [Rtsp.run]
  refine runFold_ids (Rtsp.step intervalSec delay) Prod.fst
    Rtsp.State.alert_id ?_ ?_ os s
  · intro s o h
    exact (Rtsp.rstep_none_keeps intervalSec delay s o h).1
  · intro s o a h
    have hs := Rtsp.rstep_fire_spec intervalSec delay s o a h
    refine ⟨?_, hs.2.2.2.2.2.1⟩
    rw [hs.2.2.2.1]

/-- List.range' is strictly increasing, as a chain. -/
theorem chain_lt_range' : ∀ (n a : ℕ), List.Chain' (· < ·) (List.range' a n) := by
  intro n
  induction n with
  | zero => intro a; simp
  | succ n ih =>
    intro a
    rw [List.range'_succ, List.chain'_cons']
    refine ⟨fun b hb => ?_, ih (a + 1)⟩
    cases n with
    | zero => simp [List.range'] at hb
    | succ m =>
      rw [List.range'_succ] at hb
      simp only [List.head?_cons, Option.mem_def, Option.some.injEq] at hb
      omega

/-- From a state whose marker still has its initial pre-offset value and
whose counter is still 0, a frame with presence fires at once in detect.py,
whatever the current frame count. -/
theorem Detect.dfirst_fire_from (intF : ℤ) (s : Detect.State) (f : Detect.Boxes)
    (rest : List Detect.Boxes) (hf : Detect.presentD f = true)
    (hals : s.last_save_frame = -intF) (haid : s.alert_id = 0) :
    ((runFold (Detect.step intF) s (f :: rest)).2).head?
      = some (1, s.frame_count + 1) := by
  simp only [runFold]
  rw [Detect.step_eq, if_pos ⟨hf, by rw [hals]; omega⟩]
  simp [haid]

/-- From a streaming state whose counter is still 0, a successfully read
frame with presence whose check instant is at least one interval past the
marker fires at once in detect_rtsp_camera.py. -/
theorem Rtsp.rfirst_fire_from (intervalSec delay : ℚ) (s : Rtsp.State)
    (o : Rtsp.Oracle) (rest : List Rtsp.Oracle)
    (hmode : s.mode = .streaming) (hr : o.readOk = true)
    (hp : Rtsp.presentR o.boxes = true) (haid : s.alert_id = 0)
    (hc : o.tCheck - s.last_save_time ≥ intervalSec) :
    ((runFold (Rtsp.step intervalSec delay) s (o :: rest)).2).head?
      = some (1, o.tCheck) := by
  simp only [runFold]
  rw [Rtsp.step_fire intervalSec delay s o hmode hr hp hc]
  simp [haid]

/-- C1, corrected.  The file variant (detect.py) pre-offsets its marker by
one full interval (last_save_frame = -interval_frames) and the RTSP
variant pre-offsets by one interval (last_save_time = start - interval),
so in both the first frame at which presence is true always fires alert 1;
the webcam variant instead initializes its marker to the start instant
itself, so its first presence frame need not fire. -/
theorem C1_first_fire_amended :
    (∀ intF : ℤ, (Detect.init intF).last_save_frame = -intF) ∧
      (∀ (intF : ℤ) (pre : List Detect.Boxes) (f : Detect.Boxes)
          (rest : List Detect.Boxes),
        (∀ b ∈ pre, Detect.presentD b = false) → Detect.presentD f = true →
          ((Detect.run intF (Detect.init intF) (pre ++ f :: rest)).2).head?
            = some (1, pre.length + 1)) ∧
      (∀ (opened : Bool) (t0 intervalSec : ℚ),
        (Rtsp.init opened t0 intervalSec).last_save_time = t0 - intervalSec) ∧
      (∀ (intervalSec delay : ℚ) (opened : Bool) (t0 : ℚ)
          (pre : List Rtsp.Oracle) (o : Rtsp.Oracle) (rest : List Rtsp.Oracle),
        (∀ p ∈ pre, Rtsp.presentR p.boxes = false) →
        (Rtsp.run intervalSec delay (Rtsp.init opened t0 intervalSec) pre).1.mode
            = .streaming →
        o.readOk = true → Rtsp.presentR o.boxes = true → t0 ≤ o.tCheck →
          ((Rtsp.run intervalSec delay (Rtsp.init opened t0 intervalSec)
              (pre ++ o :: rest)).2).head? = some (1, o.tCheck)) ∧
      (∀ t0 : ℚ, (Webcam.init t0).last_save_time = t0) := by
  refine ⟨fun _ => rfl, ?_, fun _ _ _ => rfl, ?_, fun _ => rfl⟩
  · intro intF pre f rest hpre hf
    have hnp := Detect.run_skip_absent intF pre hpre (Detect.init intF)
    simp only [Detect.run] at hnp ⊢
    rw [runFold_append, hnp]
    simp only [List.nil_append]
    rw [Detect.dfirst_fire_from intF _ f rest hf (by rfl) (by rfl)]
    simp [Detect.init]
  · intro I d op t0 pre o rest hpre hmode hr hp ht
    have hnp := Rtsp.rrun_all_absent I d pre hpre (Rtsp.init op t0 I)
    simp only [Rtsp.run] at hnp hmode ⊢
    rw [runFold_append]
    rw [hnp.1]
    simp only [List.nil_append]
    have haid : (runFold (Rtsp.step I d) (Rtsp.init op t0 I) pre).1.alert_id = 0 := by
      rw [hnp.2.1]; rfl
    have hlst : (runFold (Rtsp.step I d) (Rtsp.init op t0 I) pre).1.last_save_time
        = t0 - I := by
      rw [hnp.2.2]; rfl
    exact Rtsp.rfirst_fire_from I d _ o rest hmode hr hp haid
      (by rw [hlst]; linarith)

/-- C1, counterexample to the claim as stated: in the webcam variant the
throttle marker is initialized to the pipeline start instant, not
pre-offset, so with intervalSeconds = 5, start instant 0 and a first frame
at instant 1 whose presence verdict is true, no alert fires. -/
theorem C1_counterexample :
    Webcam.has_person 0 [⟨0, 1⟩] = true ∧
      (Webcam.init 0).last_save_time = 0 ∧
      (Webcam.step 5 0 (Webcam.init 0)
        (.frame 1 [⟨0, 1⟩] false)).fired = none := by
  refine ⟨?_, rfl, ?_⟩
  · norm_num [Webcam.has_person, Webcam.persons, List.filter]
  · simp only [Webcam.step, Webcam.init]
    rw [if_neg (by simp)]
    rw [if_neg (by intro hcon; have h2 := hcon.2; norm_num at h2)]

/-- C1, witness: the amended first-fire statements at concrete runs. -/
theorem C1_witness :
    ((Detect.run 10 (Detect.init 10) ([some []] ++ (some [0]) :: [])).2).head?
        = some (1, 2) ∧
      ((Rtsp.run 5 2 (Rtsp.init true 0 5)
          ([] ++ (⟨true, true, 0, 0, some [0], false⟩ : Rtsp.Oracle) :: [])).2).head?
        = some (1, 0) := by
  constructor
  · have h := C1_first_fire_amended.2.1 10 [some []] (some [0]) []
      (by decide) (by decide)
    simpa using h
  · exact C1_first_fire_amended.2.2.2.1 5 2 true 0 [] _ []
      (by simp) rfl rfl (by decide) (le_refl 0)

/-- A nonempty-and-contains-class-0 boolean check, shared by the presence
verdicts of detect.py and detect_rtsp_camera.py, holds iff some class id
in the list equals 0. -/
theorem anyZero_iff (cls : List ℤ) :
    ((!(cls.length == 0)) && cls.any (fun c => c == 0)) = true ↔
      ∃ c ∈ cls, c = 0 := by
  constructor
  · intro h
    rw [Bool.and_eq_true] at h
    simpa [List.any_eq_true] using h.2
  · intro h
    obtain ⟨c, hc, rfl⟩ := h
    rw [Bool.and_eq_true]
    constructor
    · have hne : cls ≠ [] := List.ne_nil_of_mem hc
      simp [List.length_eq_zero, hne]
    · simp only [List.any_eq_true, beq_iff_eq]
      exact ⟨0, hc, rfl⟩

/-- C2, corrected.  Presence in the webcam variant holds iff some
detection has class 0 and confidence strictly greater than the threshold
(equality at the threshold does not count); in the file and RTSP variants
the in-script check requires only a nonempty result with some class id 0
(the confidence cut is delegated to the detector call); an empty or absent
result yields false in all three, with no error path. -/
theorem C2_presence_policy_amended (thr : ℚ) (boxes : List Webcam.Detection)
    (cls : List ℤ) :
    (Webcam.has_person thr boxes = true ↔
        ∃ b ∈ boxes, b.cls = 0 ∧ b.conf > thr) ∧
      Webcam.has_person thr [] = false ∧
      (Rtsp.presentR (some cls) = true ↔ ∃ c ∈ cls, c = 0) ∧
      Rtsp.presentR none = false ∧
      (Detect.presentD (some cls) = true ↔ ∃ c ∈ cls, c = 0) ∧
      Detect.presentD none = false := by
  refine ⟨?_, rfl, ?_, rfl, ?_, rfl⟩
  · rw [show Webcam.has_person thr boxes
        = decide (0 < (Webcam.persons thr boxes).length) from rfl]
    rw [decide_eq_true_eq, List.length_pos]
    simp only [Webcam.persons]
    rw [ne_eq, List.filter_eq_nil_iff]
    push_neg
    constructor
    · intro ⟨b, hb, hp⟩
      rw [Bool.and_eq_true, beq_iff_eq, decide_eq_true_eq] at hp
      exact ⟨b, hb, hp⟩
    · intro ⟨b, hb, hp⟩
      refine ⟨b, hb, ?_⟩
      rw [Bool.and_eq_true, beq_iff_eq, decide_eq_true_eq]
      exact hp
  · exact anyZero_iff cls
  · exact anyZero_iff cls

/-- C2, counterexample to the claim as stated: a detection with class 0
and confidence exactly the threshold satisfies confidence >= threshold,
yet the webcam presence verdict is false, because the script compares with
a strict inequality. -/
theorem C2_counterexample :
    (1 : ℚ) / 2 ≥ 1 / 2 ∧
      Webcam.has_person (1 / 2) [⟨0, 1 / 2⟩] = false := by
  constructor
  · exact le_refl _
  · norm_num [Webcam.has_person, Webcam.persons, List.filter]

/-- C3, confirmed.  For both live variants, consecutive fired alerts are
separated by at least intervalSeconds of wall-clock time (for the RTSP
variant under a monotone clock: the marker-reset reading is not earlier
than the comparison reading of the same iteration); and on firing the
successor state's marker already equals the fresh clock reading, with the
marker reset ordered before the image write in the iteration's effects. -/
theorem C3_throttle_lower_bound :
    (∀ (intervalSec thr t0 : ℚ) (evs : List Webcam.Event),
      List.Chain' (fun a b => intervalSec ≤ b.2 - a.2)
        ((Webcam.run intervalSec thr (Webcam.init t0) evs).2)) ∧
      (∀ (intervalSec delay : ℚ) (opened : Bool) (t0 : ℚ)
          (os : List Rtsp.Oracle),
        (∀ o ∈ os, o.tCheck ≤ o.tReset) →
        List.Chain' (fun a b => intervalSec ≤ b.2 - a.2)
          ((Rtsp.run intervalSec delay (Rtsp.init opened t0 intervalSec) os).2)) ∧
      (∀ (intervalSec thr : ℚ) (s : Webcam.State) (ev : Webcam.Event)
          (a : ℕ × ℚ),
        (Webcam.step intervalSec thr s ev).fired = some a →
          (Webcam.step intervalSec thr s ev).state.last_save_time = a.2 ∧
          (Webcam.step intervalSec thr s ev).effects
            = [.setMarker a.2, .imwrite a.1]) ∧
      (∀ (intervalSec delay : ℚ) (s : Rtsp.State) (o : Rtsp.Oracle)
          (a : ℕ × ℚ),
        (Rtsp.step intervalSec delay s o).fired = some a →
          (Rtsp.step intervalSec delay s o).state.last_save_time = o.tReset ∧
          (Rtsp.step intervalSec delay s o).effects
            = [.setMarker o.tReset, .imwrite a.1]) := by
  refine ⟨?_, ?_, ?_, ?_⟩
  · intro I thr t0 evs
    simp only [Webcam.run]
    refine (runFold_chain (Webcam.step I thr) Webcam.State.last_save_time
      Prod.snd I evs ?_ ?_ (Webcam.init t0)).1
    · intro s ev hev a ha
      have h := Webcam.wstep_fire_spec I thr s ev a ha
      exact ⟨h.1, le_of_eq h.2.2.2.1.symm⟩
    · intro s ev hev ha
      exact (Webcam.wstep_none_keeps I thr s ev ha).2
  · intro I d op t0 os hmono
    simp only [Rtsp.run]
    refine (runFold_chain (Rtsp.step I d) Rtsp.State.last_save_time
      Prod.snd I os ?_ ?_ (Rtsp.init op t0 I)).1
    · intro s o ho a ha
      obtain ⟨h1, h2, h3, h4, h5, h6, h7, h8, h9⟩ :=
        Rtsp.rstep_fire_spec I d s o a ha
      subst h4
      exact ⟨h5, by rw [h8]; exact hmono o ho⟩
    · intro s o ho ha
      exact (Rtsp.rstep_none_keeps I d s o ha).2
  · intro I thr s ev a ha
    have h := Webcam.wstep_fire_spec I thr s ev a ha
    refine ⟨h.2.2.2.1, ?_⟩
    rw [h.2.2.2.2]
  · intro I d s o a ha
    obtain ⟨h1, h2, h3, h4, h5, h6, h7, h8, h9⟩ :=
      Rtsp.rstep_fire_spec I d s o a ha
    subst h4
    exact ⟨h8, h9⟩

/-- C3, witness: the RTSP throttle lower bound at a concrete one-frame
run, and a concrete firing webcam iteration with its effect order. -/
theorem C3_witness :
    List.Chain' (fun a b => (5 : ℚ) ≤ b.2 - a.2)
      ((Rtsp.run 5 2 (Rtsp.init true 0 5)
        [⟨true, true, 0, 0, some [0], false⟩]).2) :=
  C3_throttle_lower_bound.2.1 5 2 true 0
    [⟨true, true, 0, 0, some [0], false⟩]
    (by intro o ho
        simp only [List.mem_singleton] at ho
        subst ho
        exact le_refl 0)

/-- C4, corrected.  detect.py computes interval_frames with Python's
int(), i.e. truncation toward zero, which for the nonnegative frame rates
of a video source is the floor of fps × intervalSeconds, not its rounding;
and an alert fires only when presence holds and
currentFrameIndex - lastFiredFrameIndex >= intervalFrames. -/
theorem C4_interval_truncation (fps : ℚ) (sec : ℕ) (intF : ℤ)
    (s : Detect.State) (b : Detect.Boxes)
    (hfps : 0 ≤ fps) (hfire : ((Detect.step intF s b).fired).isSome = true) :
    Detect.interval_frames fps sec = ⌊fps * (sec : ℚ)⌋ ∧
      Detect.presentD b = true ∧
      ((s.frame_count + 1 : ℕ) : ℤ) - s.last_save_frame ≥ intF := by
  constructor
  · rw [show Detect.interval_frames fps sec
        = pyInt (fps * (sec : ℚ)) from rfl]
    rw [pyInt, if_pos (mul_nonneg hfps (by positivity))]
  · obtain ⟨a, ha⟩ := Option.isSome_iff_exists.mp hfire
    have h := Detect.step_some intF s b a ha
    exact ⟨h.1, h.2.1⟩

/-- C4, counterexample to the claim as stated: at fps = 3/2 and
intervalSeconds = 1, the code's int() truncation yields 1, while the
spec's round(fps × intervalSeconds) yields 2. -/
theorem C4_counterexample :
    Detect.interval_frames (3 / 2) 1 = 1 ∧
      interval_frames_spec (3 / 2) 1 = 2 := by
  constructor
  · norm_num [Detect.interval_frames, pyInt]
  · rw [show interval_frames_spec (3 / 2) 1
        = round ((3 / 2 : ℚ) * (1 : ℕ)) from rfl]
    rw [round_eq]
    norm_num

/-- C4, witness: the amended statement at a concrete firing iteration. -/
theorem C4_witness :
    Detect.interval_frames 10 1 = ⌊(10 : ℚ) * (1 : ℕ)⌋ ∧
      Detect.presentD (some [0]) = true ∧
      (((Detect.init 0).frame_count + 1 : ℕ) : ℤ)
          - (Detect.init 0).last_save_frame ≥ 0 :=
  C4_interval_truncation 10 1 0 (Detect.init 0) (some [0])
    (by norm_num) (by decide)

/-- C5, confirmed.  A run of the file variant or of the webcam variant
from its initial state (counter seeded at 0) fires alerts whose ids are
exactly 1..k in firing order, with no gaps and no repeats. -/
theorem C5_ids_one_to_k (intF : ℤ) (bs : List Detect.Boxes)
    (intervalSec thr t0 : ℚ) (evs : List Webcam.Event) :
    ((Detect.run intF (Detect.init intF) bs).2).map Prod.fst
        = List.range' 1 ((Detect.run intF (Detect.init intF) bs).2).length ∧
      ((Webcam.run intervalSec thr (Webcam.init t0) evs).2).map Prod.fst
        = List.range' 1
            ((Webcam.run intervalSec thr (Webcam.init t0) evs).2).length := by
  constructor
  · simpa [Detect.init] using (Detect.drun_ids intF bs (Detect.init intF)).1
  · simpa [Webcam.init] using
      (Webcam.wrun_ids intervalSec thr evs (Webcam.init t0)).1

/-- C6, confirmed.  For the live variants every open or read failure is
transient: a failed read while streaming releases the session and goes
back to connecting; with no session the loop sleeps the fixed delay and
retries open, streaming again exactly when it succeeds; an arbitrary
sequence of iterations with no quit key never reaches terminated; and an
iteration can reach terminated only through the quit key (for the webcam
variant, a failed read releases, sleeps and reopens with the state
untouched, and only a processed frame with the quit key terminates). -/
theorem C6_live_failures_transient :
    (∀ (intervalSec delay : ℚ) (s : Rtsp.State) (o : Rtsp.Oracle),
      s.mode = .streaming → o.readOk = false →
        Rtsp.step intervalSec delay s o
          = ⟨{ s with mode := .connecting }, none, [.release]⟩) ∧
      (∀ (intervalSec delay : ℚ) (s : Rtsp.State) (o : Rtsp.Oracle),
        s.mode = .connecting →
          (Rtsp.step intervalSec delay s o).fired = none ∧
            (Rtsp.step intervalSec delay s o).state.mode
              = (if o.openOk then .streaming else .connecting) ∧
            (Rtsp.step intervalSec delay s o).effects
              = [.sleep delay, .reopen]) ∧
      (∀ (intervalSec delay : ℚ) (s : Rtsp.State) (os : List Rtsp.Oracle),
        (∀ o ∈ os, o.quitKey = false) → s.mode ≠ .terminated →
          (Rtsp.run intervalSec delay s os).1.mode ≠ .terminated) ∧
      (∀ (intervalSec delay : ℚ) (s : Rtsp.State) (o : Rtsp.Oracle),
        s.mode ≠ .terminated →
          (Rtsp.step intervalSec delay s o).state.mode = .terminated →
            o.quitKey = true ∧ s.mode = .streaming ∧ o.readOk = true) ∧
      (∀ (intervalSec thr : ℚ) (s : Webcam.State),
        s.terminated = false →
          Webcam.step intervalSec thr s .readFail
            = ⟨s, none, [.release, .sleep 2, .reopen]⟩) ∧
      (∀ (intervalSec thr : ℚ) (s : Webcam.State) (ev : Webcam.Event),
        s.terminated = false →
          (Webcam.step intervalSec thr s ev).state.terminated = true →
            ∃ t boxes, ev = .frame t boxes true) := by
  refine ⟨?_, ?_, ?_, ?_, ?_, ?_⟩
  · intro I d s o hm hr
    exact Rtsp.rstep_readFail I d s o hm hr
  · intro I d s o hm
    have h := Rtsp.step_connecting I d s o hm
    exact ⟨h.1, h.2.2.2.2.1, h.2.2.2.2.2⟩
  · intro I d s os hq hs
    exact Rtsp.run_no_quit I d os hq s hs
  · intro I d s o hs ht
    exact Rtsp.rstep_quit_only I d s o hs ht
  · intro I thr s hs
    exact Webcam.wstep_readFail I thr s hs
  · intro I thr s ev hs ht
    exact Webcam.wstep_quit_only I thr s ev hs ht

/-- C6, witness: a concrete run with one failed open and one failed read
and no quit key does not terminate. -/
theorem C6_witness :
    (Rtsp.run 5 2 (Rtsp.init false 0 5)
      [⟨false, false, 0, 0, none, false⟩,
        ⟨true, false, 0, 0, none, false⟩]).1.mode ≠ Rtsp.Mode.terminated :=
  C6_live_failures_transient.2.2.1 5 2 (Rtsp.init false 0 5)
    [⟨false, false, 0, 0, none, false⟩, ⟨true, false, 0, 0, none, false⟩]
    (by intro o ho
        simp only [List.mem_cons, List.mem_singleton] at ho
        rcases ho with h | h | h
        · subst h; rfl
        · subst h; rfl
        · cases h)
    (by simp [Rtsp.init])

/-- C7, confirmed.  In the concrete finite-source scenario with fps = 10,
30 frames, presence true for frames 5 to 30 inclusive and
intervalSeconds = 1, interval_frames is 10 and the run fires exactly three
alerts, ids 1 to 3 at frames 5, 15 and 25, and the final report carries
the total 3. -/
theorem C7_concrete_scenario :
    Detect.interval_frames 10 1 = 10 ∧
      (Detect.run (Detect.interval_frames 10 1)
          (Detect.init (Detect.interval_frames 10 1))
          (List.replicate 4 (some []) ++ List.replicate 26 (some [0]))).2
        = [(1, 5), (2, 15), (3, 25)] ∧
      Detect.terminationReport
          (Detect.run (Detect.interval_frames 10 1)
            (Detect.init (Detect.interval_frames 10 1))
            (List.replicate 4 (some []) ++ List.replicate 26 (some [0]))).1
        = some 3 := by
  have h10 : Detect.interval_frames 10 1 = 10 := by
    norm_num [Detect.interval_frames, pyInt]
  rw [h10]
  exact ⟨rfl, by decide, by decide⟩

/-- C8, corrected.  On termination the file variant reports the total
count of fired alerts (the final counter equals the number of fired
alerts), and the RTSP variant likewise reports its final counter; the
webcam variant's termination path prints no total at all. -/
theorem C8_termination_report_amended (intF : ℤ) (bs : List Detect.Boxes)
    (intervalSec delay : ℚ) (opened : Bool) (t0 : ℚ)
    (os : List Rtsp.Oracle) (sw : Webcam.State) :
    Detect.terminationReport (Detect.run intF (Detect.init intF) bs).1
        = some ((Detect.run intF (Detect.init intF) bs).2).length ∧
      Rtsp.terminationReport
          (Rtsp.run intervalSec delay (Rtsp.init opened t0 intervalSec) os).1
        = some ((Rtsp.run intervalSec delay
            (Rtsp.init opened t0 intervalSec) os).2).length ∧
      Webcam.terminationReport sw = none := by
  refine ⟨?_, ?_, rfl⟩
  · have h := (Detect.drun_ids intF bs (Detect.init intF)).2
    rw [show Detect.terminationReport (Detect.run intF (Detect.init intF) bs).1
        = some (Detect.run intF (Detect.init intF) bs).1.alert_id from rfl]
    rw [h]
    simp [Detect.init]
  · have h := (Rtsp.rrun_ids intervalSec delay os
      (Rtsp.init opened t0 intervalSec)).2
    rw [show Rtsp.terminationReport
          (Rtsp.run intervalSec delay (Rtsp.init opened t0 intervalSec) os).1
        = some (Rtsp.run intervalSec delay
            (Rtsp.init opened t0 intervalSec) os).1.alert_id from rfl]
    rw [h]
    simp [Rtsp.init]

/-- C8, counterexample to the claim as stated: the webcam variant's
termination path carries no alert total, whatever the counter value. -/
theorem C8_counterexample :
    Webcam.terminationReport
      { alert_id := 3, last_save_time := 0, terminated := true } = none := rfl

/-- C9, confirmed.  In each variant, an iteration that fires no alert
leaves the alert counter and the throttle marker unchanged; both are
mutated only in the fire branch. -/
theorem C9_no_fire_frame_effect :
    (∀ (intF : ℤ) (s : Detect.State) (b : Detect.Boxes),
      (Detect.step intF s b).fired = none →
        (Detect.step intF s b).state.alert_id = s.alert_id ∧
          (Detect.step intF s b).state.last_save_frame = s.last_save_frame) ∧
      (∀ (intervalSec thr : ℚ) (s : Webcam.State) (ev : Webcam.Event),
        (Webcam.step intervalSec thr s ev).fired = none →
          (Webcam.step intervalSec thr s ev).state.alert_id = s.alert_id ∧
            (Webcam.step intervalSec thr s ev).state.last_save_time
              = s.last_save_time) ∧
      (∀ (intervalSec delay : ℚ) (s : Rtsp.State) (o : Rtsp.Oracle),
        (Rtsp.step intervalSec delay s o).fired = none →
          (Rtsp.step intervalSec delay s o).state.alert_id = s.alert_id ∧
            (Rtsp.step intervalSec delay s o).state.last_save_time
              = s.last_save_time) := by
  refine ⟨?_, ?_, ?_⟩
  · intro intF s b h
    rw [Detect.step_none_state intF s b h]
    exact ⟨rfl, rfl⟩
  · intro I thr s ev h
    exact Webcam.wstep_none_keeps I thr s ev h
  · intro I d s o h
    exact Rtsp.rstep_none_keeps I d s o h

/-- C9, witness: a concrete non-firing iteration of each variant. -/
theorem C9_witness :
    (Detect.step 10 (Detect.init 10) none).state.alert_id
        = (Detect.init 10).alert_id ∧
      (Detect.step 10 (Detect.init 10) none).state.last_save_frame
        = (Detect.init 10).last_save_frame :=
  C9_no_fire_frame_effect.1 10 (Detect.init 10) none rfl

/-- C10, confirmed.  The reconnection paths of the live variants preserve
the pipeline state: a failed read while streaming, and a reconnect
attempt with no session, leave the alert counter, the frame counter and
the throttle marker unchanged (for the webcam variant the whole state is
unchanged), so the alert ids of a whole RTSP run remain strictly
increasing across session boundaries. -/
theorem C10_reconnect_preserves_state :
    (∀ (intervalSec delay : ℚ) (s : Rtsp.State) (o : Rtsp.Oracle),
      s.mode = .streaming → o.readOk = false →
        (Rtsp.step intervalSec delay s o).state.alert_id = s.alert_id ∧
          (Rtsp.step intervalSec delay s o).state.frame_count = s.frame_count ∧
          (Rtsp.step intervalSec delay s o).state.last_save_time
            = s.last_save_time) ∧
      (∀ (intervalSec delay : ℚ) (s : Rtsp.State) (o : Rtsp.Oracle),
        s.mode = .connecting →
          (Rtsp.step intervalSec delay s o).state.alert_id = s.alert_id ∧
            (Rtsp.step intervalSec delay s o).state.frame_count
              = s.frame_count ∧
            (Rtsp.step intervalSec delay s o).state.last_save_time
              = s.last_save_time) ∧
      (∀ (intervalSec thr : ℚ) (s : Webcam.State),
        s.terminated = false →
          (Webcam.step intervalSec thr s .readFail).state = s) ∧
      (∀ (intervalSec delay : ℚ) (opened : Bool) (t0 : ℚ)
          (os : List Rtsp.Oracle),
        ((Rtsp.run intervalSec delay (Rtsp.init opened t0 intervalSec)
            os).2.map Prod.fst).Chain' (· < ·)) := by
  refine ⟨?_, ?_, ?_, ?_⟩
  · intro I d s o hm hr
    rw [Rtsp.rstep_readFail I d s o hm hr]
    exact ⟨rfl, rfl, rfl⟩
  · intro I d s o hm
    have h := Rtsp.step_connecting I d s o hm
    exact ⟨h.2.1, h.2.2.1, h.2.2.2.1⟩
  · intro I thr s hs
    rw [Webcam.wstep_readFail I thr s hs]
  · intro I d op t0 os
    rw [(Rtsp.rrun_ids I d os (Rtsp.init op t0 I)).1]
    exact chain_lt_range' _ _

/-- C10, witness: a concrete failed read while streaming preserves the
counters and the marker. -/
theorem C10_witness :
    ((Rtsp.step 5 2 ⟨.streaming, 2, 7, 42⟩
        ⟨true, false, 0, 0, none, false⟩).state.alert_id
      = (⟨.streaming, 2, 7, 42⟩ : Rtsp.State).alert_id) ∧
      ((Rtsp.step 5 2 ⟨.streaming, 2, 7, 42⟩
          ⟨true, false, 0, 0, none, false⟩).state.frame_count
        = (⟨.streaming, 2, 7, 42⟩ : Rtsp.State).frame_count) ∧
      ((Rtsp.step 5 2 ⟨.streaming, 2, 7, 42⟩
          ⟨true, false, 0, 0, none, false⟩).state.last_save_time
        = (⟨.streaming, 2, 7, 42⟩ : Rtsp.State).last_save_time) :=
  C10_reconnect_preserves_state.1 5 2 ⟨.streaming, 2, 7, 42⟩
    ⟨true, false, 0, 0, none, false⟩ rfl rfl
